import Mathlib

/-!
Formal model of the pg-parser FFI binding layer: `bindings/parse.c`,
`bindings/protobuf-json.c`, `bindings/patches/deparse_node_17.c`,
`bindings/patches/deparse_node_entry.c`, and
`bindings/patches/read_node_public.c`.

The SQL engine (`pg_query_parse_protobuf`, `pg_query_deparse_protobuf`,
`pg_query_scan`), the protobuf codec (`pg_query__parse_result__unpack`,
`pg_query__parse_result__pack`, `protobuf2json_string`,
`json2protobuf_string`, `pg_query__node__unpack`, `_readNode`) and the
per-node-kind renderers (`deparseExpr`, `deparseStmt`, `deparseRangeVar`,
...) are external collaborators of this layer; they are modelled as
explicit oracle parameters.  Everything else is translated directly from
the C sources.

C pointer-valued struct fields are modelled by `CPtr`: a field of a
`malloc`-ed struct starts as `uninit` (indeterminate heap garbage), a
field of a `calloc`-ed struct starts as `cnull`, and an assigned field
is `val`.  A C truth test `if (p)` of an `uninit` field reads
indeterminate memory; the outcome of such a read is modelled by a
Boolean oracle `g` threaded through the functions that perform one.
-/

namespace PgParser

/-- Value of a C pointer-sized struct field: uninitialized malloc
garbage, `NULL`, or a valid pointer to a value. -/
inductive CPtr (α : Type) where
  | uninit : CPtr α
  | cnull : CPtr α
  | val : α → CPtr α
deriving DecidableEq, Repr

/-- C truth value of a pointer field read (`if (p)`); reading an
uninitialized field yields the unspecified Boolean `g`. -/
def CPtr.truthy {α : Type} : CPtr α → Bool → Bool
  | .cnull, _ => false
  | .val _, _ => true
  | .uninit, g => g

/-- `PgQueryProtobuf` from `pg_query.h`: a length-prefixed binary tree
buffer.  The bytes are modelled as a list of naturals. -/
structure PgQueryProtobuf where
  len : Nat
  data : List Nat
deriving DecidableEq, Repr

/-- `PgQueryError` from `pg_query.h`: message, source coordinates and
cursor position.  String fields are `CPtr` so a calloc-zeroed field
(`cnull`) is distinguishable from an assigned one. -/
structure PgQueryError where
  message : CPtr String
  filename : CPtr String
  funcname : CPtr String
  context : CPtr String
  lineno : Int
  cursorpos : Int
deriving DecidableEq, Repr

/-- External protobuf/JSON codec operations used by `protobuf-json.c`,
over an abstract message type `Msg` (`PgQuery__ParseResult`).
`protobuf2json` and `json2protobuf` return the out-parameter value on
a zero return code and the 256-byte error buffer text otherwise. -/
structure JsonCodec (Msg : Type) where
  unpack : PgQueryProtobuf → Option Msg
  packedSize : Msg → Nat
  pack : Msg → List Nat
  protobuf2json : Msg → Except String String
  json2protobuf : String → Except String Msg

/-- `ProtobufToJsonResult` from `protobuf-json.c`: the struct is
malloc-ed, so each field is `uninit` until assigned. -/
structure ProtobufToJsonResult where
  json_string : CPtr String
  error : CPtr String
deriving DecidableEq, Repr

/-- `JsonToProtobufResult` from `protobuf-json.c`.  The embedded
`PgQueryProtobuf` struct is modelled as one `CPtr` field because its
`len`/`data` members are assigned together (both are malloc garbage
until the packing step writes them). -/
structure JsonToProtobufResult where
  protobuf : CPtr PgQueryProtobuf
  error : CPtr String
deriving DecidableEq, Repr

/-- `protobuf_to_json` from `protobuf-json.c`.  The result struct is
malloc-ed (fields start `uninit`).  On unpack failure only `error` is
assigned; on `protobuf2json_string` failure only `error` is assigned
(the out parameter is not written on failure); on success only
`json_string` is assigned and the scratch error buffer is freed —
`error` is never written on the success path. -/
def protobuf_to_json {Msg : Type} (codec : JsonCodec Msg)
    (protobuf : PgQueryProtobuf) : ProtobufToJsonResult :=
  match codec.unpack protobuf with
  | none => { json_string := .uninit, error := .val "Failed to unpack protobuf message" }
  | some parse_result =>
    match codec.protobuf2json parse_result with
    | .error e => { json_string := .uninit, error := .val e }
    | .ok j => { json_string := .val j, error := .uninit }

/-- `json_to_protobuf` from `protobuf-json.c`.  The result struct is
malloc-ed (fields start `uninit`).  On `json2protobuf_string` failure
only `error` is assigned; on success the message is re-serialized with
`pg_query__parse_result__get_packed_size` and
`pg_query__parse_result__pack` into a fresh buffer and only `protobuf`
is assigned — `error` is never written on the success path.  (The
debug re-conversion to JSON between the decode and the pack only
prints and leaks; it does not affect the result.) -/
def json_to_protobuf {Msg : Type} (codec : JsonCodec Msg)
    (json_string : String) : JsonToProtobufResult :=
  match codec.json2protobuf json_string with
  | .error e => { protobuf := .uninit, error := .val e }
  | .ok parse_result =>
    { protobuf := .val { len := codec.packedSize parse_result
                         data := codec.pack parse_result }
      error := .uninit }

/-- `PgQueryProtobufParseResult` from `pg_query.h`, returned by value by
the engine routine `pg_query_parse_protobuf`. -/
structure PgQueryProtobufParseResult where
  parse_tree : PgQueryProtobuf
  stderr_buffer : CPtr String
  error : CPtr PgQueryError
deriving DecidableEq, Repr

/-- `PgQueryParseResult` as populated by `parse_sql` in `parse.c`:
`parse_tree` now holds the JSON text of the tree. -/
structure PgQueryParseResult where
  parse_tree : CPtr String
  stderr_buffer : CPtr String
  error : CPtr PgQueryError
deriving DecidableEq, Repr

/-- Memory-significant events of one `parse_sql` call, in program
order: the call into `protobuf_to_json`, and each
`free(protobufResult->parse_tree.data)`. -/
inductive ParseEvent where
  | callProtobufToJson : ParseEvent
  | freeParseTreeData : ParseEvent
deriving DecidableEq, Repr

/-- `parse_sql` from `parse.c`, returning the result envelope together
with the trace of its memory-significant events.  `engine` is
`pg_query_parse_protobuf`; `g` resolves any C truth test of an
uninitialized pointer field. -/
def parse_sql {Msg : Type} (codec : JsonCodec Msg)
    (engine : String → PgQueryProtobufParseResult) (g : Bool)
    (sql : String) : PgQueryParseResult × List ParseEvent :=
  let protobufResult := engine sql
  if protobufResult.error.truthy g then
    ({ parse_tree := .cnull
       error := protobufResult.error
       stderr_buffer := protobufResult.stderr_buffer },
     [.freeParseTreeData])
  else
    let json_result := protobuf_to_json codec protobufResult.parse_tree
    if json_result.json_string.truthy g = false then
      let error : CPtr PgQueryError :=
        if json_result.error.truthy g then
          .val { message := json_result.error, filename := .cnull
                 funcname := .cnull, context := .cnull
                 lineno := 0, cursorpos := 0 }
        else .cnull
      ({ parse_tree := .cnull
         error := error
         stderr_buffer := protobufResult.stderr_buffer },
       [.callProtobufToJson, .freeParseTreeData])
    else
      ({ parse_tree := json_result.json_string
         error := .cnull
         stderr_buffer := protobufResult.stderr_buffer },
       [.callProtobufToJson, .freeParseTreeData])

/-- Free events of `free_parse_result` in `parse.c`, in program
order. -/
inductive ParseFreeEvent where
  | freeErrorInfo : ParseFreeEvent
  | freeParseTreeString : ParseFreeEvent
  | freeStderrBuffer : ParseFreeEvent
  | freeResultStruct : ParseFreeEvent
deriving DecidableEq, Repr

/-- `free_parse_result` from `parse.c`: frees the `ErrorInfo` when
present, then unconditionally `free`s the tree text, the stderr buffer
and the result struct (`free(NULL)` is a no-op in C, so the events are
emitted unconditionally just as the calls are made). -/
def free_parse_result (g : Bool) (result : PgQueryParseResult) :
    List ParseFreeEvent :=
  (if result.error.truthy g then [.freeErrorInfo] else []) ++
    [.freeParseTreeString, .freeStderrBuffer, .freeResultStruct]

/-- `PgQueryDeparseResult` from `pg_query.h`. -/
structure PgQueryDeparseResult where
  query : CPtr String
  error : CPtr PgQueryError
deriving DecidableEq, Repr

/-- `deparse_sql` from `parse.c`, returning the result envelope
together with a flag recording whether the engine routine
`pg_query_deparse_protobuf` was invoked during the call.  The engine
oracle receives the `protobuf` field as read from the
`JsonToProtobufResult` (which may be uninitialized garbage when the
conversion-error check misfires on garbage). -/
def deparse_sql {Msg : Type} (codec : JsonCodec Msg)
    (engine : CPtr PgQueryProtobuf → PgQueryDeparseResult) (g : Bool)
    (parse_tree_json : String) : PgQueryDeparseResult × Bool :=
  let protobuf_result := json_to_protobuf codec parse_tree_json
  if protobuf_result.error.truthy g then
    ({ query := .cnull
       error := .val { message := protobuf_result.error, filename := .cnull
                       funcname := .cnull, context := .cnull
                       lineno := 0, cursorpos := 0 } },
     false)
  else
    (engine protobuf_result.protobuf, true)

/-- `PgQueryScanResult` from `pg_query.h`, returned by value by
`pg_query_scan`. -/
structure PgQueryScanResult where
  pbuf : PgQueryProtobuf
  stderr_buffer : CPtr String
  error : CPtr PgQueryError
deriving DecidableEq, Repr

/-- One token of the unpacked `PgQuery__ScanResult` message. -/
structure ScanTokenMsg where
  startPos : Int
  endPos : Int
  token : Int
  keyword_kind : Int
deriving DecidableEq, Repr

/-- A C string pointer tagged with its provenance: a static,
process-lifetime name-table entry, or a heap-owned copy. -/
inductive CStr where
  | staticRef : String → CStr
  | heapOwned : String → CStr
deriving DecidableEq, Repr

/-- `ScanTokenData` from `parse.c`: the fields copied out per token.
The `name` field records its provenance. -/
structure ScanTokenData where
  startPos : Int
  endPos : Int
  name : CStr
  keyword_kind : Int
deriving DecidableEq, Repr

/-- `PgScanResult` from `parse.c`.  The struct is calloc-ed, so fields
start zeroed (`cnull` / `0`) rather than uninitialized. -/
structure PgScanResult where
  n_tokens : Nat
  tokens : CPtr (List ScanTokenData)
  error : CPtr PgQueryError
deriving DecidableEq, Repr

/-- External collaborators of `scan_sql`: the engine tokenizer
`pg_query_scan`, the codec `pg_query__scan_result__unpack`, and the
static enum descriptor lookup
`protobuf_c_enum_descriptor_get_value(&pg_query__token__descriptor, t)`
whose result, when found, points into the descriptor's
process-lifetime name table. -/
structure ScanEnv where
  pg_query_scan : String → PgQueryScanResult
  scanUnpack : PgQueryProtobuf → Option (List ScanTokenMsg)
  descName : Int → Option String

/-- `scan_sql` from `parse.c`.  The result struct is calloc-ed.  On an
engine error the error is moved into the result; on unpack failure a
generic calloc-zeroed `PgQueryError` with a fixed heap-copied message
is installed; on success each token's name is either the descriptor's
static name or the static literal `"UNKNOWN"`. -/
def scan_sql (env : ScanEnv) (g : Bool) (sql : String) : PgScanResult :=
  let scan_result := env.pg_query_scan sql
  if scan_result.error.truthy g then
    { n_tokens := 0, tokens := .cnull, error := scan_result.error }
  else
    match env.scanUnpack scan_result.pbuf with
    | none =>
      { n_tokens := 0, tokens := .cnull
        error := .val { message := .val "Failed to unpack scan result protobuf"
                        filename := .cnull, funcname := .cnull
                        context := .cnull, lineno := 0, cursorpos := 0 } }
    | some toks =>
      { n_tokens := toks.length
        tokens := .val (toks.map fun t =>
          { startPos := t.startPos
            endPos := t.endPos
            name := .staticRef ((env.descName t.token).getD "UNKNOWN")
            keyword_kind := t.keyword_kind })
        error := .cnull }

/-- Free events of `free_scan_result` in `parse.c`.
`freeTokenNameStorage i` would represent a `free` of token `i`'s name
string; the routine performs no such call. -/
inductive ScanFreeEvent where
  | freeErrorInfo : ScanFreeEvent
  | freeTokensArray : ScanFreeEvent
  | freeTokenNameStorage : Nat → ScanFreeEvent
  | freeResultStruct : ScanFreeEvent
deriving DecidableEq, Repr

/-- `free_scan_result` from `parse.c`: frees the `ErrorInfo` when
present, then the token array and the result struct; it never touches
the per-token name pointers. -/
def free_scan_result (g : Bool) (result : PgScanResult) :
    List ScanFreeEvent :=
  (if result.error.truthy g then [.freeErrorInfo] else []) ++
    [.freeTokensArray, .freeResultStruct]

/-- Clause-level node tags with bespoke handlers in `deparseNode`
(`deparse_node_17.c`), other than `T_ResTarget` whose handler is
inlined. -/
inductive ClauseKind where
  | T_RangeVar | T_TypeName | T_ColumnDef | T_SortBy | T_WindowDef
  | T_Alias | T_JoinExpr | T_CommonTableExpr | T_WithClause
  | T_RangeSubselect | T_RangeFunction | T_OnConflictClause
  | T_Constraint | T_IndexElem | T_FunctionParameter | T_LockingClause
  | T_GroupingSet | T_RoleSpec | T_RangeTableSample | T_RangeTableFunc
deriving DecidableEq, Repr

/-- Expression-level node tags that `deparseNode` routes to the general
expression renderer `deparseExpr` (`deparse_node_17.c`). -/
inductive ExprKind where
  | T_ColumnRef | T_A_Const | T_ParamRef | T_A_Indirection | T_CaseExpr
  | T_SubLink | T_A_ArrayExpr | T_RowExpr | T_GroupingFunc | T_TypeCast
  | T_CollateClause | T_A_Expr | T_BoolExpr | T_NullTest | T_BooleanTest
  | T_SetToDefault | T_FuncCall | T_SQLValueFunction | T_MinMaxExpr
  | T_CoalesceExpr | T_XmlExpr | T_XmlSerialize | T_JsonIsPredicate
  | T_MergeSupportFunc | T_JsonParseExpr | T_JsonScalarExpr
  | T_JsonSerializeExpr | T_JsonFuncExpr | T_JsonObjectAgg
  | T_JsonArrayAgg | T_JsonObjectConstructor | T_JsonArrayConstructor
  | T_JsonArrayQueryConstructor
deriving DecidableEq, Repr

/-- An internal PostgreSQL `Node`, as far as this layer's dispatcher
inspects it: a `ResTarget` is taken apart (its `val` and `name`
fields), every other node only exposes its tag class; node contents
opaque to the dispatcher are an abstract payload. -/
inductive PgNode where
  | resTarget : Option PgNode → Option String → PgNode
  | clause : ClauseKind → List Nat → PgNode
  | expr : ExprKind → List Nat → PgNode
  | other : Nat → List Nat → PgNode

/-- The fields of an `ErrorData` record captured by `elog(ERROR, ...)`
and read back by `CopyErrorData()` in the recovery region. -/
structure PgErrorData where
  message : String
  filename : String
  funcname : String
  lineno : Int
  cursorpos : Int
deriving DecidableEq, Repr

/-- The `ErrorData` raised by `elog(ERROR, "deparseNode: NULL node")`
in `deparse_node_17.c`.  The model does not track C source line
numbers, so `lineno` is 0. -/
def deparseNodeNullError : PgErrorData :=
  { message := "deparseNode: NULL node"
    filename := "postgres_deparse.c"
    funcname := "deparseNode"
    lineno := 0, cursorpos := 0 }

/-- The `ErrorData` raised by
`elog(ERROR, "pg_query_protobuf_to_node: failed to unpack protobuf")`
in `read_node_public.c`. -/
def protobufToNodeUnpackError : PgErrorData :=
  { message := "pg_query_protobuf_to_node: failed to unpack protobuf"
    filename := "pg_query_readfuncs_protobuf.c"
    funcname := "pg_query_protobuf_to_node"
    lineno := 0, cursorpos := 0 }

/-- External renderers called by `deparseNode`: the general expression
renderer `deparseExpr`, the bespoke clause handlers (`deparseRangeVar`
etc., merged into one oracle receiving the node), the general statement
renderer `deparseStmt`, and `quote_identifier`.  Each renderer returns
the text it appends to the `StringInfo`, or raises an engine fatal
condition (`Except.error`). -/
structure DeparseEnv where
  deparseExpr : PgNode → Except PgErrorData String
  deparseClause : PgNode → Except PgErrorData String
  deparseStmt : PgNode → Except PgErrorData String
  quote_identifier : String → String

/-- `deparseNode` from `deparse_node_17.c`: the per-node dispatcher.
A `NULL` node raises `elog(ERROR, ...)`.  A `ResTarget` is rendered
inline as `val [AS name]` when `val` is present, `name` alone when
`val` is absent, and nothing when both are absent.  Other clause tags
go to their bespoke handlers, expression tags to `deparseExpr`, and
everything else falls through to `deparseStmt`.  The returned string
is what the call appends to `str`. -/
def deparseNode (env : DeparseEnv) :
    Option PgNode → Except PgErrorData String
  | none => .error deparseNodeNullError
  | some n =>
    match n with
    | .resTarget v name =>
      match v with
      | some v =>
        match env.deparseExpr v with
        | .error e => .error e
        | .ok s =>
          match name with
          | some nm => .ok (s ++ " AS " ++ env.quote_identifier nm)
          | none => .ok s
      | none =>
        match name with
        | some nm => .ok (env.quote_identifier nm)
        | none => .ok ""
    | .clause _ _ => env.deparseClause n
    | .expr _ _ => env.deparseExpr n
    | .other _ _ => env.deparseStmt n

/-- External node codec used by `pg_query_protobuf_to_node`
(`read_node_public.c`): `pg_query__node__unpack` over an abstract
unpacked-message type `P`, and the schema reader `_readNode`, whose
resulting `Node*` may be `NULL` (`none`). -/
structure NodeCodec (P : Type) where
  unpackNode : PgQueryProtobuf → Option P
  readNode : P → Option PgNode

/-- `pg_query_protobuf_to_node` from `read_node_public.c`: unpack the
single-node protobuf, raising an engine fatal condition when the
unpack fails, then convert with `_readNode`. -/
def pg_query_protobuf_to_node {P : Type} (nc : NodeCodec P)
    (protobuf : PgQueryProtobuf) : Except PgErrorData (Option PgNode) :=
  match nc.unpackNode protobuf with
  | none => .error protobufToNodeUnpackError
  | some proto_node => .ok (nc.readNode proto_node)

/-- The deep copy of an `ErrorData` record performed in the `PG_CATCH`
block of `pg_query_deparse_node_protobuf`: `message`, `filename` and
`funcname` are strdup-ed into boundary-owned memory, `context` is set
to `NULL`, and the numeric fields are copied. -/
def copyError (ed : PgErrorData) : PgQueryError :=
  { message := .val ed.message
    filename := .val ed.filename
    funcname := .val ed.funcname
    context := .cnull
    lineno := ed.lineno
    cursorpos := ed.cursorpos }

/-- `pg_query_deparse_node_protobuf` from `deparse_node_entry.c`: the
result is zero-initialized (`{0}`); inside the recovery region
(`PG_TRY`/`PG_CATCH` in a fresh memory context) the node is decoded
and dispatched through `deparseNode`; on normal completion the
accumulated text is strdup-ed into `query`; on an engine fatal
condition the error record is copied out and installed as `error`.
The function always returns an envelope — the fault never propagates
past this boundary. -/
def pg_query_deparse_node_protobuf {P : Type} (env : DeparseEnv)
    (nc : NodeCodec P) (node_protobuf : PgQueryProtobuf) :
    PgQueryDeparseResult :=
  let attempt : Except PgErrorData String :=
    match pg_query_protobuf_to_node nc node_protobuf with
    | .error e => .error e
    | .ok node => deparseNode env node
  match attempt with
  | .ok s => { query := .val s, error := .cnull }
  | .error ed => { query := .cnull, error := .val (copyError ed) }

/-- Concrete codec instance over `Msg := Nat`, used to evaluate the
model on closed inputs: a message `n` packs to the single byte `[n]`. -/
def natCodec : JsonCodec Nat where
  unpack pb :=
    match pb.data with
    | [n] => if pb.len = 1 then some n else none
    | _ => none
  packedSize _ := 1
  pack n := [n]
  protobuf2json n := .ok (toString n)
  json2protobuf s := if s = "5" then .ok 5 else .error "bad structured text"

/-- Concrete codec whose raw unpack step always fails. -/
def unpackFailCodec : JsonCodec Nat where
  unpack _ := none
  packedSize _ := 1
  pack n := [n]
  protobuf2json n := .ok (toString n)
  json2protobuf _ := .error "bad structured text"

/-- Concrete parse engine: always succeeds with tree buffer `[5]` and
an empty stderr stream. -/
def demoParseEngine : String → PgQueryProtobufParseResult := fun _ =>
  { parse_tree := { len := 1, data := [5] }
    stderr_buffer := .val ""
    error := .cnull }

/-- Concrete deparse engine used to close the deparse model. -/
def demoDeparseEngine : CPtr PgQueryProtobuf → PgQueryDeparseResult :=
  fun _ => { query := .val "SELECT 1", error := .cnull }

/-- Concrete scan environment: one token over bytes `[0]`, whose token
number 651 resolves to a static descriptor name. -/
def demoScanEnv : ScanEnv where
  pg_query_scan _ :=
    { pbuf := { len := 1, data := [0] }, stderr_buffer := .cnull
      error := .cnull }
  scanUnpack pb :=
    match pb.data with
    | [0] => some [{ startPos := 0, endPos := 6, token := 651, keyword_kind := 4 }]
    | _ => none
  descName t := if t = 651 then some "SELECT_TOKEN" else none

/-- Concrete scan environment whose unpack step fails while the engine
itself reports no error. -/
def demoScanUnpackFailEnv : ScanEnv where
  pg_query_scan _ :=
    { pbuf := { len := 0, data := [] }, stderr_buffer := .cnull
      error := .cnull }
  scanUnpack _ := none
  descName _ := none

/-- A node encoding the integer literal `1`: an `A_Const`, which is in
the expression class of `deparseNode`. -/
def lit1Node : PgNode := .expr .T_A_Const [1]

/-- The `ErrorData` a rejecting general statement renderer raises. -/
def stmtRejectError : PgErrorData :=
  { message := "deparseStmt: unpermitted node type"
    filename := "postgres_deparse.c"
    funcname := "deparseStmt"
    lineno := 0, cursorpos := 0 }

/-- Concrete renderer environment: the expression renderer knows only
the literal-1 node, the statement renderer rejects everything, and
`quote_identifier` keeps plain identifiers unquoted. -/
def demoDeparseEnv : DeparseEnv where
  deparseExpr n :=
    match n with
    | .expr .T_A_Const [1] => .ok "1"
    | _ => .error stmtRejectError
  deparseClause _ := .ok ""
  deparseStmt _ := .error stmtRejectError
  quote_identifier s := s

/-- Concrete node codec over `P := Option PgNode`: byte `[0]` decodes
to a `NULL` node, `[1]` to a node of an unhandled kind, `[2]` to a
`ResTarget` with both fields absent. -/
def demoNodeCodec : NodeCodec (Option PgNode) where
  unpackNode pb :=
    match pb.data with
    | [0] => some none
    | [1] => some (some (.other 999 []))
    | [2] => some (some (.resTarget none none))
    | _ => none
  readNode p := p

/-- A sample scan token as produced by `scan_sql` under
`demoScanEnv`. -/
def demoScanToken : ScanTokenData :=
  { startPos := 0, endPos := 6, name := .staticRef "SELECT_TOKEN"
    keyword_kind := 4 }

/-- C1: the claimed envelope invariant — exactly one of value/error
populated and no field left uninitialized on any return path — fails
on the code.  `protobuf_to_json` and `json_to_protobuf` malloc their
result struct and never write the unused field: on an unpack failure
`json_string` stays uninitialized, on success `error` stays
uninitialized, and symmetrically for `json_to_protobuf`.  This theorem
evaluates the code at such inputs and exhibits the uninitialized
fields. -/
theorem envelope_fields_left_uninitialized_C1 :
    (protobuf_to_json unpackFailCodec { len := 0, data := [] }).json_string
      = CPtr.uninit ∧
    (protobuf_to_json natCodec { len := 1, data := [5] }).error
      = CPtr.uninit ∧
    (json_to_protobuf natCodec "5").error = CPtr.uninit ∧
    (json_to_protobuf natCodec "oops").protobuf = CPtr.uninit := by
  refine ⟨rfl, rfl, rfl, rfl⟩

/-- C2: for a valid binary tree buffer `b` produced by this layer
(i.e. packed from a message `m` by the codec), converting `b` to
structured text with `protobuf_to_json` and converting that text back
with `json_to_protobuf` both succeed, and the resulting buffer is
byte-equal to `b`.  The hypotheses state that the opaque codec is
correct on `b`: unpacking recovers `m`, text encoding succeeds, and
text decoding is a left inverse of text encoding. -/
theorem binary_text_roundtrip_C2 {Msg : Type} (codec : JsonCodec Msg)
    (m : Msg) (b : PgQueryProtobuf) (j : String)
    (hb : b = { len := codec.packedSize m, data := codec.pack m })
    (hu : codec.unpack b = some m)
    (hj : codec.protobuf2json m = .ok j)
    (hr : codec.json2protobuf j = .ok m) :
    (protobuf_to_json codec b).json_string = .val j ∧
    (json_to_protobuf codec j).protobuf = .val b := by
  refine ⟨?_, ?_⟩
  · simp only [protobuf_to_json, hu, hj]
  · simp only [json_to_protobuf, hr, hb]

/-- Closed witness for C2 at the concrete codec `natCodec`, message
`5`, buffer `[5]`, structured text `"5"`. -/
theorem binary_text_roundtrip_C2_witness :
    (protobuf_to_json natCodec { len := 1, data := [5] }).json_string
      = .val "5" ∧
    (json_to_protobuf natCodec "5").protobuf
      = .val { len := 1, data := [5] } :=
  binary_text_roundtrip_C2 natCodec 5 { len := 1, data := [5] } "5"
    rfl rfl rfl rfl

/-- C3: for a single `ResTarget` node, `deparseNode` renders exactly
`"1 AS x"` when both the value (a literal 1) and the name `"x"` are
present, exactly `"1"` when the name is absent, and exactly `"x"` when
the value is absent.  The hypotheses pin down the external expression
renderer on the literal-1 node and `quote_identifier` on `"x"`. -/
theorem restarget_rendering_C3 (env : DeparseEnv) (lit1 : PgNode)
    (he : env.deparseExpr lit1 = .ok "1")
    (hq : env.quote_identifier "x" = "x") :
    deparseNode env (some (.resTarget (some lit1) (some "x"))) = .ok "1 AS x" ∧
    deparseNode env (some (.resTarget (some lit1) none)) = .ok "1" ∧
    deparseNode env (some (.resTarget none (some "x"))) = .ok "x" := by
  refine ⟨?_, ?_, ?_⟩
  all_goals simp only [deparseNode, he, hq]
  all_goals rfl

/-- Closed witness for C3 at the concrete renderer environment. -/
theorem restarget_rendering_C3_witness :
    deparseNode demoDeparseEnv
        (some (.resTarget (some lit1Node) (some "x"))) = .ok "1 AS x" ∧
    deparseNode demoDeparseEnv
        (some (.resTarget (some lit1Node) none)) = .ok "1" ∧
    deparseNode demoDeparseEnv
        (some (.resTarget none (some "x"))) = .ok "x" :=
  restarget_rendering_C3 demoDeparseEnv lit1Node rfl rfl

/-- C4: when `json_to_protobuf` reports an error on the input tree
text, `deparse_sql` returns an envelope whose `query` is null and
whose error wraps the conversion error message, and the engine routine
`pg_query_deparse_protobuf` is not invoked during the call (the
returned flag is `false` for every engine oracle and every resolution
`g` of uninitialized reads). -/
theorem deparse_conversion_error_no_engine_C4 {Msg : Type}
    (codec : JsonCodec Msg)
    (engine : CPtr PgQueryProtobuf → PgQueryDeparseResult)
    (g : Bool) (tree_json e : String)
    (h : codec.json2protobuf tree_json = .error e) :
    (deparse_sql codec engine g tree_json).1.query = .cnull ∧
    (deparse_sql codec engine g tree_json).1.error =
      .val { message := .val e, filename := .cnull, funcname := .cnull
             context := .cnull, lineno := 0, cursorpos := 0 } ∧
    (deparse_sql codec engine g tree_json).2 = false := by
  have hj : json_to_protobuf codec tree_json =
      { protobuf := .uninit, error := .val e } := by
    simp only [json_to_protobuf, h]
  refine ⟨?_, ?_, ?_⟩
  all_goals simp only [deparse_sql, hj, CPtr.truthy, if_true]

/-- Closed witness for C4: the concrete codec rejects the text
`"oops"` and the engine flag comes back `false`. -/
theorem deparse_conversion_error_no_engine_C4_witness :
    (deparse_sql natCodec demoDeparseEngine false "oops").1.query = .cnull ∧
    (deparse_sql natCodec demoDeparseEngine false "oops").1.error =
      .val { message := .val "bad structured text", filename := .cnull
             funcname := .cnull, context := .cnull
             lineno := 0, cursorpos := 0 } ∧
    (deparse_sql natCodec demoDeparseEngine false "oops").2 = false :=
  deparse_conversion_error_no_engine_C4 natCodec demoDeparseEngine false
    "oops" "bad structured text" rfl

/-- C5: a single-node buffer that decodes to a node of a kind with no
bespoke or expression-level handler falls through to the general
statement renderer; when that renderer rejects the node the fatal
condition is caught at the recovery-region boundary of
`pg_query_deparse_node_protobuf` and returned as an ordinary
`ErrorInfo` envelope, and likewise a buffer decoding to a `NULL` node
yields the caught `"deparseNode: NULL node"` error.  In both cases the
call returns an envelope (the model is a total function), so the fault
never aborts the process nor propagates past the boundary. -/
theorem unhandled_node_fatal_caught_C5 {P : Type} (env : DeparseEnv)
    (nc : NodeCodec P) (pb pbN : PgQueryProtobuf) (pn pnN : P)
    (k : Nat) (payload : List Nat) (ed : PgErrorData)
    (h1 : nc.unpackNode pb = some pn)
    (h2 : nc.readNode pn = some (.other k payload))
    (h3 : env.deparseStmt (.other k payload) = .error ed)
    (h4 : nc.unpackNode pbN = some pnN)
    (h5 : nc.readNode pnN = none) :
    pg_query_deparse_node_protobuf env nc pb =
      { query := .cnull, error := .val (copyError ed) } ∧
    pg_query_deparse_node_protobuf env nc pbN =
      { query := .cnull, error := .val (copyError deparseNodeNullError) } := by
  refine ⟨?_, ?_⟩
  · simp only [pg_query_deparse_node_protobuf, pg_query_protobuf_to_node,
      h1, h2, deparseNode, h3]
  · simp only [pg_query_deparse_node_protobuf, pg_query_protobuf_to_node,
      h4, h5, deparseNode]

/-- Closed witness for C5: under the concrete node codec, byte `[1]`
decodes to an unhandled node kind the statement renderer rejects, and
byte `[0]` decodes to a `NULL` node; both come back as ordinary error
envelopes. -/
theorem unhandled_node_fatal_caught_C5_witness :
    pg_query_deparse_node_protobuf demoDeparseEnv demoNodeCodec
        { len := 1, data := [1] } =
      { query := .cnull, error := .val (copyError stmtRejectError) } ∧
    pg_query_deparse_node_protobuf demoDeparseEnv demoNodeCodec
        { len := 1, data := [0] } =
      { query := .cnull, error := .val (copyError deparseNodeNullError) } :=
  unhandled_node_fatal_caught_C5 demoDeparseEnv demoNodeCodec
    { len := 1, data := [1] } { len := 1, data := [0] }
    (some (.other 999 [])) none 999 [] stmtRejectError
    rfl rfl rfl rfl rfl

/-- Helper: the memory-event trace of `parse_sql` is
`[freeParseTreeData]` on an engine error and
`[callProtobufToJson, freeParseTreeData]` otherwise. -/
theorem parse_sql_trace_eq {Msg : Type} (codec : JsonCodec Msg)
    (engine : String → PgQueryProtobufParseResult) (g : Bool)
    (sql : String) :
    (parse_sql codec engine g sql).2 =
      if (engine sql).error.truthy g then
        [ParseEvent.freeParseTreeData]
      else [ParseEvent.callProtobufToJson, ParseEvent.freeParseTreeData] := by
  unfold parse_sql
  cases hE : (engine sql).error.truthy g <;> simp [hE, apply_ite]

/-- Helper: `parse_sql` copies the engine's stderr buffer pointer into
the envelope on every return path. -/
theorem parse_sql_stderr_eq {Msg : Type} (codec : JsonCodec Msg)
    (engine : String → PgQueryProtobufParseResult) (g : Bool)
    (sql : String) :
    (parse_sql codec engine g sql).1.stderr_buffer =
      (engine sql).stderr_buffer := by
  unfold parse_sql
  cases hE : (engine sql).error.truthy g <;> simp [hE, apply_ite]

/-- Helper: a populated tree-text value in the envelope can only be
the output of a successful unpack followed by a successful JSON
conversion. -/
theorem parse_sql_val_inv {Msg : Type} (codec : JsonCodec Msg)
    (engine : String → PgQueryProtobufParseResult) (g : Bool)
    (sql : String) (j : String)
    (hj : (parse_sql codec engine g sql).1.parse_tree = .val j) :
    ∃ m, codec.unpack (engine sql).parse_tree = some m ∧
         codec.protobuf2json m = .ok j := by
  unfold parse_sql at hj
  cases hE : (engine sql).error.truthy g
  · simp only [hE] at hj
    rcases hu : codec.unpack (engine sql).parse_tree with _ | m
    · simp [protobuf_to_json, hu, CPtr.truthy] at hj
      cases g <;> simp_all
    · rcases hpj : codec.protobuf2json m with e | j0
      · simp [protobuf_to_json, hu, hpj, CPtr.truthy] at hj
        cases g <;> simp_all
      · simp [protobuf_to_json, hu, hpj, CPtr.truthy] at hj
        subst hj
        exact ⟨m, rfl, hpj⟩
  · simp only [hE] at hj
    simp at hj

/-- C6: the intermediate binary tree buffer obtained from the engine
is released exactly once on every return path of `parse_sql` — the
trace holds exactly one `freeParseTreeData` event; on every path that
reaches the conversion, the release immediately follows the
`protobuf_to_json` call; and the envelope never retains the buffer: a
populated `parse_tree` value is the converted JSON text produced by
the codec, not the buffer. -/
theorem parse_tree_buffer_freed_once_C6 {Msg : Type}
    (codec : JsonCodec Msg)
    (engine : String → PgQueryProtobufParseResult) (g : Bool)
    (sql : String) :
    (parse_sql codec engine g sql).2.count .freeParseTreeData = 1 ∧
    ((parse_sql codec engine g sql).2 = [.freeParseTreeData] ∨
     (parse_sql codec engine g sql).2 =
       [.callProtobufToJson, .freeParseTreeData]) ∧
    (∀ j, (parse_sql codec engine g sql).1.parse_tree = .val j →
       ∃ m, codec.unpack (engine sql).parse_tree = some m ∧
            codec.protobuf2json m = .ok j) := by
  refine ⟨?_, ?_, fun j hj => parse_sql_val_inv codec engine g sql j hj⟩
  · rw [parse_sql_trace_eq]
    cases hE : (engine sql).error.truthy g <;> simp
  · rw [parse_sql_trace_eq]
    cases hE : (engine sql).error.truthy g <;> simp

/-- Closed witness for C6 under the concrete codec and engine: the
envelope's tree text `"5"` is traced back to the codec outputs. -/
theorem parse_tree_buffer_freed_once_C6_witness :
    ∃ m, natCodec.unpack (demoParseEngine "SELECT 1").parse_tree = some m ∧
         natCodec.protobuf2json m = .ok "5" :=
  (parse_tree_buffer_freed_once_C6 natCodec demoParseEngine false
    "SELECT 1").2.2 "5" rfl

/-- C7: when a raw protobuf unpack step fails, the operation returns a
generic ErrorInfo with a fixed diagnostic message and without the
engine's rich fields.  In `scan_sql` (unpack of the scan result
returning null while the engine reported no error) the installed error
is calloc-zeroed apart from its fixed message, so file, function, line
and cursor are all unpopulated; in `protobuf_to_json` the error slot
is a bare message string whose value is the fixed diagnostic. -/
theorem unpack_failure_generic_error_C7 {Msg : Type}
    (codec : JsonCodec Msg) (env : ScanEnv) (g : Bool) (sql : String)
    (pb : PgQueryProtobuf)
    (h1 : (env.pg_query_scan sql).error = .cnull)
    (h2 : env.scanUnpack (env.pg_query_scan sql).pbuf = none)
    (h3 : codec.unpack pb = none) :
    (scan_sql env g sql).error =
      .val { message := .val "Failed to unpack scan result protobuf"
             filename := .cnull, funcname := .cnull, context := .cnull
             lineno := 0, cursorpos := 0 } ∧
    (scan_sql env g sql).tokens = .cnull ∧
    (scan_sql env g sql).n_tokens = 0 ∧
    (protobuf_to_json codec pb).error =
      .val "Failed to unpack protobuf message" := by
  refine ⟨?_, ?_, ?_, ?_⟩
  all_goals simp [scan_sql, protobuf_to_json, h1, h2, h3, CPtr.truthy]

/-- Closed witness for C7 on the concrete failing environments. -/
theorem unpack_failure_generic_error_C7_witness :
    (scan_sql demoScanUnpackFailEnv false "SELECT").error =
      .val { message := .val "Failed to unpack scan result protobuf"
             filename := .cnull, funcname := .cnull, context := .cnull
             lineno := 0, cursorpos := 0 } ∧
    (scan_sql demoScanUnpackFailEnv false "SELECT").tokens = .cnull ∧
    (scan_sql demoScanUnpackFailEnv false "SELECT").n_tokens = 0 ∧
    (protobuf_to_json unpackFailCodec { len := 0, data := [] }).error =
      .val "Failed to unpack protobuf message" :=
  unpack_failure_generic_error_C7 unpackFailCodec demoScanUnpackFailEnv
    false "SELECT" { len := 0, data := [] } rfl rfl rfl

/-- C8: `parse_sql` attaches the engine's stderr diagnostic stream to
the envelope on every return path (the envelope's `stderr_buffer`
pointer equals the engine's on engine error, conversion failure and
success alike), and the matching release routine `free_parse_result`
frees that buffer as part of releasing the result, so the stream is
owned by the result. -/
theorem parse_stderr_attached_C8 {Msg : Type} (codec : JsonCodec Msg)
    (engine : String → PgQueryProtobufParseResult) (g : Bool)
    (sql : String) :
    (parse_sql codec engine g sql).1.stderr_buffer =
      (engine sql).stderr_buffer ∧
    ParseFreeEvent.freeStderrBuffer ∈
      free_parse_result g (parse_sql codec engine g sql).1 := by
  refine ⟨parse_sql_stderr_eq codec engine g sql, ?_⟩
  simp [free_parse_result]

/-- C9: every per-token name produced by `scan_sql` is a static,
process-lifetime reference (a descriptor name-table entry or the fixed
literal `"UNKNOWN"`), and `free_scan_result` never frees a per-token
name: every free it performs is of the ErrorInfo, the token array or
the result struct itself. -/
theorem scan_token_names_static_C9 (env : ScanEnv) (g : Bool)
    (sql : String) :
    (∀ toks, (scan_sql env g sql).tokens = .val toks →
       ∀ t ∈ toks, ∃ s, t.name = CStr.staticRef s) ∧
    (∀ e ∈ free_scan_result g (scan_sql env g sql),
       e = ScanFreeEvent.freeErrorInfo ∨
       e = ScanFreeEvent.freeTokensArray ∨
       e = ScanFreeEvent.freeResultStruct) := by
  constructor
  · intro toks htoks t ht
    unfold scan_sql at htoks
    cases hE : (env.pg_query_scan sql).error.truthy g
    · simp only [hE] at htoks
      rcases hu : env.scanUnpack (env.pg_query_scan sql).pbuf with _ | msgs
      · simp [hu] at htoks
      · simp [hu] at htoks
        subst htoks
        rcases List.mem_map.mp ht with ⟨a, _, rfl⟩
        exact ⟨_, rfl⟩
    · simp [hE] at htoks
  · intro e he
    unfold free_scan_result at he
    rw [List.mem_append] at he
    rcases he with he | he
    · split at he
      · simp at he
        subst he
        exact Or.inl rfl
      · simp at he
    · simp at he
      rcases he with he | he
      · exact Or.inr (Or.inl he)
      · exact Or.inr (Or.inr he)

/-- Closed witness for C9: the one token produced under the concrete
scan environment carries a static name, and a free event of the
release routine is one of the three permitted frees. -/
theorem scan_token_names_static_C9_witness :
    (∃ s, demoScanToken.name = CStr.staticRef s) ∧
    (ScanFreeEvent.freeResultStruct = ScanFreeEvent.freeErrorInfo ∨
     ScanFreeEvent.freeResultStruct = ScanFreeEvent.freeTokensArray ∨
     ScanFreeEvent.freeResultStruct = ScanFreeEvent.freeResultStruct) := by
  constructor
  · exact (scan_token_names_static_C9 demoScanEnv false "SELECT 1").1
      [demoScanToken] rfl demoScanToken (by simp)
  · exact (scan_token_names_static_C9 demoScanEnv false "SELECT 1").2
      ScanFreeEvent.freeResultStruct (by decide)

/-- C10: for a `ResTarget` node in which both the value and the name
are absent, `deparseNode` appends nothing, and
`pg_query_deparse_node_protobuf` succeeds on a buffer decoding to such
a node, returning an envelope with the empty SQL string and no
error. -/
theorem empty_restarget_success_C10 {P : Type} (env : DeparseEnv)
    (nc : NodeCodec P) (pb : PgQueryProtobuf) (pn : P)
    (h1 : nc.unpackNode pb = some pn)
    (h2 : nc.readNode pn = some (.resTarget none none)) :
    deparseNode env (some (.resTarget none none)) = .ok "" ∧
    pg_query_deparse_node_protobuf env nc pb =
      { query := .val "", error := .cnull } := by
  refine ⟨rfl, ?_⟩
  simp only [pg_query_deparse_node_protobuf, pg_query_protobuf_to_node,
    h1, h2, deparseNode]

/-- Closed witness for C10: byte `[2]` decodes to the empty
`ResTarget` under the concrete node codec. -/
theorem empty_restarget_success_C10_witness :
    deparseNode demoDeparseEnv (some (.resTarget none none)) = .ok "" ∧
    pg_query_deparse_node_protobuf demoDeparseEnv demoNodeCodec
        { len := 1, data := [2] } =
      { query := .val "", error := .cnull } :=
  empty_restarget_success_C10 demoDeparseEnv demoNodeCodec
    { len := 1, data := [2] } (some (.resTarget none none)) rfl rfl

end PgParser
